import Mathlib

/-!
Shallow embedding of the mcpx-py client and chat orchestrator
(src/mcpx/client.py, src/mcpx_client/client.py, src/mcpx_py/chat.py,
src/mcpx/chat.py).  Python dicts are modelled as association lists with
Python dict assignment semantics (overwrite in place, append at the end
for a fresh key), byte strings as lists of naturals, wall-clock instants
as integers, and raised exceptions as `Except` errors.  The two client
variants (mcpx and mcpx_client) share the code the claims are about
line for line; the embedding follows src/mcpx/client.py and notes the
mcpx_client line numbers where they differ.
-/

/-- Python exceptions that the embedded code can raise. -/
inductive PyErr where
  | typeError
  | keyError
  | attributeError
  | netError
  deriving DecidableEq, Repr

/-- Byte strings (Python bytes) as lists of byte values. -/
abbrev Bytes := List Nat

/-- Python dict lookup m[k], as an Option. -/
def dget {α : Type} (m : List (String × α)) (k : String) : Option α :=
  (m.find? (fun p => p.1 == k)).map (fun p => p.2)

/-- Python dict assignment m[k] = v: overwrite in place, else append. -/
def dset {α : Type} (m : List (String × α)) (k : String) (v : α) : List (String × α) :=
  if m.any (fun p => p.1 == k) then m.map (fun p => if p.1 == k then (k, v) else p)
  else m ++ [(k, v)]

/-- Python str(bool): f-string rendering of a bool. -/
def pyBoolStr (b : Bool) : String := if b then "True" else "False"

/-! ### Permission settings and the sandbox manifest

The servlet `settings` dict as read by `Client.plugin`
(src/mcpx/client.py lines 402-408, src/mcpx_client/client.py lines
240-246): the code reads `settings["permissions"]` (KeyError when
absent), `perm["filesystem"].get("volumes", ...)` and
`perm["network"].get("domains", ...)`, and `settings.get("config", ...)`.
Optional fields model keys that may be absent from the JSON dict. -/

/-- The filesystem section of a permission manifest. -/
structure FsPerm where
  volumes : Option (List (String × String))
  deriving DecidableEq, Repr

/-- The network section of a permission manifest. -/
structure NetPerm where
  domains : Option (List String)
  deriving DecidableEq, Repr

/-- The permissions dict inside servlet settings. -/
structure Permissions where
  filesystem : Option FsPerm
  network : Option NetPerm
  deriving DecidableEq, Repr

/-- Servlet settings as read by the instantiator. -/
structure Settings where
  permissions : Option Permissions
  config : Option (List (String × String))
  deriving DecidableEq, Repr

/-- The extism sandbox manifest built by Client.plugin. -/
structure Manifest where
  wasm : Bytes
  allowed_paths : List (String × String)
  allowed_hosts : List String
  config : List (String × String)
  deriving DecidableEq, Repr

/-- The manifest construction of Client.plugin
(src/mcpx/client.py lines 402-408):
perm = install.settings["permissions"] raises KeyError when absent, as do
perm["filesystem"] and perm["network"]; the .get calls default the
volumes, domains and config keys to empty. -/
def buildManifest (content : Bytes) (settings : Settings) : Except PyErr Manifest :=
  match settings.permissions with
  | none => .error .keyError
  | some perm =>
    match perm.filesystem with
    | none => .error .keyError
    | some fs =>
      match perm.network with
      | none => .error .keyError
      | some nw =>
        .ok { wasm := content
            , allowed_paths := fs.volumes.getD []
            , allowed_hosts := nw.domains.getD []
            , config := settings.config.getD [] }

/-! ### Servlets, tools and the caches -/

/-- A tool definition (dataclass Tool, src/mcpx/client.py lines 38-62).
The input schema is carried as an uninterpreted payload; the back
pointer to the owning servlet is recovered from the tool index. -/
structure ToolDef where
  name : String
  description : String
  input_schema : String
  deriving DecidableEq, Repr

/-- An installed servlet (dataclass Servlet, src/mcpx/client.py lines
65-104; dataclass Install in src/mcpx_client/client.py).  `content` is
the lazily fetched WASM module data, starting absent. -/
structure Servlet where
  name : String
  slug : String
  binding_id : String
  content_addr : String
  settings : Settings
  tools : List ToolDef
  content : Option Bytes := none
  deriving DecidableEq, Repr

/-- A live sandbox instance (class InstalledPlugin).  Each construction
of ext.Plugin is given a fresh `pluginId`, so two InstalledPlugin values
are the same live instance exactly when their ids agree. -/
structure InstalledPlugin where
  install : Servlet
  pluginId : Nat
  deriving DecidableEq, Repr

/-- The Cache class of src/mcpx/client.py lines 244-270, with items a
Python dict, `duration` the ttl and `last_update` the refresh instant. -/
structure CacheSt (α : Type) where
  items : List (String × α)
  duration : Option Int
  last_update : Option Int
  deriving DecidableEq, Repr

/-- Cache.add (line 254): items[key] = item. -/
def CacheSt.add {α : Type} (c : CacheSt α) (k : String) (v : α) : CacheSt α :=
  { c with items := dset c.items k v }

/-- Cache.clear (lines 260-262): empty the items and set last_update to
the current instant. -/
def CacheSt.clear {α : Type} (c : CacheSt α) (now : Int) : CacheSt α :=
  { c with items := [], last_update := some now }

/-- Cache.needs_refresh (lines 264-270): False when no duration is set,
True when never updated, otherwise now - last_update >= duration. -/
def CacheSt.needs_refresh {α : Type} (c : CacheSt α) (now : Int) : Bool :=
  match c.duration with
  | none => false
  | some d =>
    match c.last_update with
    | none => true
    | some lu => d ≤ now - lu

/-- The mutable state of a Client (src/mcpx/client.py lines 273-313)
together with instrumentation counters: `instantiated` counts ext.Plugin
constructions (sandbox instantiations), `contentFetches` counts module
byte fetches via the content address, and `listFetches` counts network
reads of the installation list. -/
structure ClientState where
  install_cache : CacheSt Servlet
  plugin_cache : CacheSt InstalledPlugin
  instantiated : Nat
  contentFetches : Nat
  listFetches : Nat
  deriving DecidableEq, Repr

/-- One read of the Client.installs property (src/mcpx/client.py lines
352-363).  `fetch` is the outcome of the network read performed by
list_installs (lines 315-350), already parsed into servlet records; an
exception from it propagates to the caller.  The code first clears both
caches when a refresh is due, then iterates the list_installs generator
(which performs the network read), adding each servlet under its name. -/
def installsRead (st : ClientState) (now : Int)
    (fetch : Except PyErr (List Servlet)) :
    Except PyErr (List (String × Servlet)) × ClientState :=
  if st.install_cache.needs_refresh now then
    let st1 : ClientState :=
      { st with install_cache := st.install_cache.clear now
              , plugin_cache := st.plugin_cache.clear now
              , listFetches := st.listFetches + 1 }
    match fetch with
    | .error e => (.error e, st1)
    | .ok installs =>
      let ic := installs.foldl (fun c i => c.add i.name i) st1.install_cache
      let st2 := { st1 with install_cache := ic }
      (.ok st2.install_cache.items, st2)
  else (.ok st.install_cache.items, st)

/-- The Client.tools property (src/mcpx/client.py lines 365-375): a dict
from tool name to the tool and its owning servlet, built by iterating
the installs and their tools in order with dict overwrite semantics. -/
def toolsIndex (installs : List (String × Servlet)) :
    List (String × (Servlet × ToolDef)) :=
  installs.foldl
    (fun acc p => p.2.tools.foldl (fun acc2 t => dset acc2 t.name (p.2, t)) acc) []

/-- Client.plugin (src/mcpx/client.py lines 377-415, identically
src/mcpx_client/client.py lines 218-253).  `h` models the Python string
hash (process dependent), `net` the bytes the content-address fetch
would return, `functions` the host functions argument (each modelled by
its pointer).  Following the source: the cache key string is
f-string name-wasi; for each supplied function the code appends a dash
and then appends the integer hash(func.pointer) to the string, which in
Python raises TypeError (str concatenated with int), so any non-empty
functions list fails there; the key is then str(hash(...)) and looked up
in plugin_cache.items; on a miss the module bytes are fetched when
absent and stored on the servlet record, the manifest is built, a fresh
ext.Plugin is constructed and the result is stored in the plugin cache
under install.name (line 414).  Returns the result (or raised error),
the possibly updated servlet record and the client state at exit. -/
def pluginStep (h : String → Int) (net : Bytes) (st : ClientState)
    (install : Servlet) (wasi : Bool) (functions : Option (List Nat)) :
    Except PyErr (InstalledPlugin × Servlet) × ClientState :=
  match functions with
  | some (_ :: _) => (.error .typeError, st)
  | _ =>
    let cache_name := toString (h (install.name ++ "-" ++ pyBoolStr wasi))
    match dget st.plugin_cache.items cache_name with
    | some p => (.ok (p, install), st)
    | none =>
      let fetched : Servlet × ClientState :=
        match install.content with
        | some _ => (install, st)
        | none => ({ install with content := some net },
                   { st with contentFetches := st.contentFetches + 1 })
      let install1 := fetched.1
      let st1 := fetched.2
      match buildManifest (install1.content.getD []) install1.settings with
      | .error e => (.error e, st1)
      | .ok _manifest =>
        let p : InstalledPlugin := { install := install1, pluginId := st1.instantiated }
        let st2 := { st1 with instantiated := st1.instantiated + 1
                            , plugin_cache := st1.plugin_cache.add install1.name p }
        (.ok (p, install1), st2)

/-- Two successive Client.plugin calls on the same servlet with
wasi=True and functions=None, threading the updated servlet record and
client state from the first call into the second. -/
def pluginTwice (h : String → Int) (net : Bytes) (st : ClientState)
    (install : Servlet) :
    Option (InstalledPlugin × InstalledPlugin × ClientState) :=
  match pluginStep h net st install true none with
  | (.error _, _) => none
  | (.ok (p1, install1), st1) =>
    match pluginStep h net st1 install1 true none with
    | (.error _, _) => none
    | (.ok (p2, _), st2) => some (p1, p2, st2)

/-- Client.call (src/mcpx/client.py lines 417-430) up to the point where
the sandbox is invoked.  The code resolves the tool name through the
tools property (self.tools[tool] raises KeyError for an unknown name,
after installs has refreshed the caches if the ttl has elapsed), then
obtains a plugin via Client.plugin; an ok result models reaching
plugin.call, the single sandbox interaction. -/
def callStep (h : String → Int) (net : Bytes) (st : ClientState) (now : Int)
    (fetch : Except PyErr (List Servlet)) (tool : String) (wasi : Bool)
    (functions : Option (List Nat)) : Except PyErr InstalledPlugin × ClientState :=
  match installsRead st now fetch with
  | (.error e, st1) => (.error e, st1)
  | (.ok items, st1) =>
    match dget (toolsIndex items) tool with
    | none => (.error .keyError, st1)
    | some (servlet, _t) =>
      match pluginStep h net st1 servlet wasi functions with
      | (.error e, st2) => (.error e, st2)
      | (.ok (p, _), st2) => (.ok p, st2)

/-! ### Decoding tool-call replies

InstalledPlugin.call (src/mcpx/client.py lines 163-186) parses the JSON
reply and walks r["content"] in order: a block of type "text" appends a
Content with the UTF-8 encoded text, a block of type "image" appends a
Content with the base64-decoded data and the given mime type, any other
type is skipped.  `enc` models Python str.encode and `b64` models
base64.b64decode; both are machine encodings external to this code. -/

/-- The Content dataclass (src/mcpx/client.py lines 107-140); `_data` is
the stored payload, absent by default. -/
structure ContentM where
  type : String
  mime_type : String := "text/plain"
  _data : Option Bytes := none
  deriving DecidableEq, Repr

/-- The data property of Content: the stored payload or empty bytes. -/
def ContentM.data (c : ContentM) : Bytes := c._data.getD []

/-- One parsed entry of the reply content array: a text block, an image
block carrying a base64 payload and a MIME type, or a block of any
other type. -/
inductive Block where
  | text (s : String)
  | image (dataB64 : String) (mimeType : String)
  | other (ty : String)
  deriving DecidableEq, Repr

/-- The decoding loop of InstalledPlugin.call, as the source writes it:
an accumulator list with one append per recognized block. -/
def pluginCallDecode (enc : String → Bytes) (b64 : String → Bytes)
    (blocks : List Block) : List ContentM :=
  blocks.foldl
    (fun out c =>
      match c with
      | .text s => out ++ [{ type := "text", _data := some (enc s) }]
      | .image d m => out ++ [{ type := "image", mime_type := m, _data := some (b64 d) }]
      | .other _ => out) []

/-- The per-block conversion performed by the decode loop, none for a
skipped block. -/
def convBlock (enc : String → Bytes) (b64 : String → Bytes) : Block → Option ContentM
  | .text s => some { type := "text", _data := some (enc s) }
  | .image d m => some { type := "image", mime_type := m, _data := some (b64 d) }
  | .other _ => none

/-! ### Chat orchestrator (src/mcpx_py/chat.py)

The ChatProvider.call_tool and Ollama.chat pair.  The LLM backend is an
oracle from the message history to a model reply; the mcp.run client is
a function from tool name and input to either a decoded content list or
a raised exception rendered by traceback.format_exc as a string. -/

/-- One history entry appended by ChatProvider.append_message. -/
structure MsgP where
  role : String
  content : String
  deriving DecidableEq, Repr

/-- The ToolCall dataclass (src/mcpx_py/chat.py lines 85-95). -/
structure ToolCallP where
  name : String
  input : String
  deriving DecidableEq, Repr

/-- The ChatResponse dataclass (src/mcpx_py/chat.py lines 98-131):
role, content, kind, optional tool call info, and the `_error` field set
to True when the tool raised an error. -/
structure ChatResponseP where
  role : String
  content : String
  kind : String := "text"
  tool : Option ToolCallP := none
  _error : Option Bool := none
  deriving DecidableEq, Repr

/-- A normalized model reply: optional text content plus the tool calls
requested by the model (name and arguments each). -/
structure ModelReply where
  content : Option String
  tool_calls : List ToolCallP
  deriving Repr

/-- The collaborators of a chat session: the LLM oracle, the mcp.run
client behind Client.call (errors carry the traceback string), the
configured system prompt, and the name chosen by NamedTemporaryFile for
image content. -/
structure ChatEnv where
  oracle : List MsgP → ModelReply
  callClient : String → String → Except String (List ContentM)
  system : String
  tmpName : String

/-- ChatProvider.append_message (src/mcpx_py/chat.py lines 208-217):
append a record whose content is prefixed by the tool name when the
message is a tool result. -/
def appendMsg (msgs : List MsgP) (msg : String) (role : String)
    (tool : Option String) : List MsgP :=
  msgs ++ [{ role := role
           , content := match tool with
                        | none => msg
                        | some t => t ++ " output: " ++ msg }]

/-- The start of Ollama.chat (lines 387-388): the system prompt is
appended first when the history is empty. -/
def withSystem (env : ChatEnv) (msgs : List MsgP) : List MsgP :=
  if msgs.isEmpty then appendMsg msgs env.system "system" none else msgs

/-- The padding inside the f-string of the error message fed back to the
model (src/mcpx_py/chat.py lines 352-354): the literal contains a line
continuation, so the 28 spaces of indentation before the tool name are
part of the string. -/
def contPad : String := String.mk (List.replicate 28 ' ')

/-- The message fed back into the conversation when a tool call raised:
f-string Encountered an error when calling tool (continuation) name: s. -/
def toolErrorText (name s : String) : String :=
  "Encountered an error when calling tool " ++ contPad ++ name ++ ": " ++ s

/-- Python string decoding of a text content payload as used by
Content.text; inverse of the encoding only on encoded payloads, which is
all the chat loop applies it to. -/
def decodePayload (dec : Bytes → String) (c : ContentM) : String := dec c.data

mutual

/-- Ollama.chat (src/mcpx_py/chat.py lines 384-406): append the system
prompt on first use, append the incoming message (role user, or role
tool with the tool-output prefix), issue one model turn, yield and
append the assistant text when non-empty, then run call_tool for each
tool call in the reply.  Returns the yielded responses, the message
history at exit, and the number of model turns issued.  `fuel` bounds
the recursion depth of the mutually recursive Python pair; every
theorem below pins the reply shapes so the bound is never reached. -/
def ollamaChat (env : ChatEnv) (dec : Bytes → String) (fuel : Nat)
    (msgs : List MsgP) (msg : String) (tool : Option String) :
    List ChatResponseP × List MsgP × Nat :=
  let msgs2 := appendMsg (withSystem env msgs)
      msg (if tool.isNone then "user" else "tool") tool
  let reply := env.oracle msgs2
  let withText : List ChatResponseP × List MsgP :=
    match reply.content with
    | some c =>
      if c ≠ "" then
        ([{ role := "assistant", content := c }], appendMsg msgs2 c "assistant" none)
      else ([], msgs2)
    | none => ([], msgs2)
  match fuel with
  | 0 => (withText.1, withText.2, 1)
  | fuel + 1 =>
    let final := reply.tool_calls.foldl
      (fun acc call =>
        let r := callTool env dec fuel acc.2.1 call.name call.input
        (acc.1 ++ r.1, r.2.1, acc.2.2 + r.2.2))
      (withText.1, withText.2, 1)
    (final.1, final.2.1, final.2.2)
termination_by (fuel, 0)

/-- ChatProvider.call_tool (src/mcpx_py/chat.py lines 257-357) for a
tool that is not one of the three builtin names: run Client.call inside
the try block; on success walk the decoded content in order, yielding a
tool response and one chat turn per text block and an image-file tool
response per image block; on any exception yield a tool response whose
content is the traceback with the error flag set, then chat the error
message back to the model.  The function always returns: the except
branch converts the exception into responses instead of re-raising. -/
def callTool (env : ChatEnv) (dec : Bytes → String) (fuel : Nat)
    (msgs : List MsgP) (name input : String) :
    List ChatResponseP × List MsgP × Nat :=
  match env.callClient name input with
  | .ok contents =>
    contents.foldl
      (fun acc c =>
        if c.type == "text" then
          let r := ollamaChat env dec fuel acc.2.1 (decodePayload dec c) (some name)
          (acc.1 ++ [{ role := "tool", content := decodePayload dec c
                     , tool := some { name := name, input := input } }] ++ r.1,
           r.2.1, acc.2.2 + r.2.2)
        else if c.type == "image" then
          (acc.1 ++ [{ role := "tool", content := env.tmpName, kind := "image"
                     , tool := some { name := name, input := input } }],
           acc.2.1, acc.2.2)
        else acc)
      ([], msgs, 0)
  | .error s =>
    let r := ollamaChat env dec fuel msgs (toolErrorText name s) (some name)
    ({ role := "tool", content := s
     , tool := some { name := name, input := input }
     , _error := some true } :: r.1,
     r.2.1, r.2.2)
termination_by (fuel, 1)

end

/-! ### Attribute lookup and the is_error properties

Python attribute access on a dataclass resolves against the declared
fields and properties and raises AttributeError otherwise.  The bodies
of ChatResponse.is_error (src/mcpx_py/chat.py lines 133-138) and
ToolResponse.is_error (src/mcpx/chat.py lines 53-55) both read
self.error, while the declared field is named _error. -/

/-- A value produced by attribute lookup on ChatResponse. -/
inductive AttrVal where
  | str (s : String)
  | optBool (b : Option Bool)
  | optTool (t : Option ToolCallP)
  deriving DecidableEq, Repr

/-- Python truthiness of an attribute value, as used by x or False. -/
def pyTruthy : AttrVal → Bool
  | .str s => s ≠ ""
  | .optBool b => b.getD false
  | .optTool t => t.isSome

/-- Attribute lookup on the ChatResponse dataclass: the declared fields
role, content, kind, tool and _error resolve; any other name raises
AttributeError. -/
def ChatResponseP.getattr (r : ChatResponseP) (a : String) : Except PyErr AttrVal :=
  if a == "role" then .ok (.str r.role)
  else if a == "content" then .ok (.str r.content)
  else if a == "kind" then .ok (.str r.kind)
  else if a == "tool" then .ok (.optTool r.tool)
  else if a == "_error" then .ok (.optBool r._error)
  else .error .attributeError

/-- The is_error property of ChatResponse (src/mcpx_py/chat.py lines
133-138): return self.error or False. -/
def ChatResponseP.is_error (r : ChatResponseP) : Except PyErr Bool :=
  match r.getattr "error" with
  | .error e => .error e
  | .ok v => .ok (pyTruthy v || false)

/-- The ToolResponse dataclass of the mcpx variant (src/mcpx/chat.py
lines 47-55). -/
structure ToolResponseM where
  tool : String
  input : String
  _error : Option Bool := none
  deriving DecidableEq, Repr

/-- Attribute lookup on ToolResponse: fields tool, input and _error. -/
def ToolResponseM.getattr (r : ToolResponseM) (a : String) : Except PyErr AttrVal :=
  if a == "tool" then .ok (.str r.tool)
  else if a == "input" then .ok (.str r.input)
  else if a == "_error" then .ok (.optBool r._error)
  else .error .attributeError

/-- The is_error property of ToolResponse (src/mcpx/chat.py lines
53-55): return self.error or False. -/
def ToolResponseM.is_error (r : ToolResponseM) : Except PyErr Bool :=
  match r.getattr "error" with
  | .error e => .error e
  | .ok v => .ok (pyTruthy v || false)

/-! ### Sample values used by witnesses and counterexamples -/

/-- Settings in which every permission section is present but the
volumes, domains and config keys are absent. -/
def settings0 : Settings :=
  { permissions := some { filesystem := some { volumes := none }
                        , network := some { domains := none } }
  , config := none }

/-- A sample tool definition. -/
def toolDef0 : ToolDef := { name := "t", description := "d", input_schema := "sch" }

/-- A sample servlet whose module bytes have not been fetched yet. -/
def servlet0 : Servlet :=
  { name := "s", slug := "sl", binding_id := "b", content_addr := "addr"
  , settings := settings0, tools := [toolDef0], content := none }

/-- A fresh client state as Client.__init__ builds it (install cache
with the configured ttl of one time unit, plugin cache without one). -/
def freshClient : ClientState :=
  { install_cache := { items := [], duration := some 1, last_update := none }
  , plugin_cache := { items := [], duration := none, last_update := none }
  , instantiated := 0, contentFetches := 0, listFetches := 0 }

/-- A sample cached plugin instance. -/
def plugin0 : InstalledPlugin := { install := servlet0, pluginId := 0 }

/-- A client state whose install cache holds servlet0 and whose ttl has
elapsed (duration 1, last refresh at 0), with one cached plugin. -/
def staleClient : ClientState :=
  { install_cache := { items := [("s", servlet0)], duration := some 1, last_update := some 0 }
  , plugin_cache := { items := [("s", plugin0)], duration := none, last_update := none }
  , instantiated := 1, contentFetches := 1, listFetches := 1 }

/-- A client state like staleClient but read again well inside the ttl
window (duration 10, last refresh at 0). -/
def freshWindowClient : ClientState :=
  { install_cache := { items := [("s", servlet0)], duration := some 10, last_update := some 0 }
  , plugin_cache := { items := [("s", plugin0)], duration := none, last_update := none }
  , instantiated := 1, contentFetches := 1, listFetches := 1 }

/-- A chat environment whose client call always raises (traceback
rendered as boom) and whose model reply requests no further tools. -/
def envW : ChatEnv :=
  { oracle := fun _ => { content := some "ok", tool_calls := [] }
  , callClient := fun _ _ => .error "boom"
  , system := "sys", tmpName := "tmp" }

/-! ### Helper lemmas -/

theorem dget_nil {α : Type} (k : String) : dget ([] : List (String × α)) k = none := rfl

theorem dget_cons {α : Type} (k1 : String) (v : α) (t : List (String × α)) (k : String) :
    dget ((k1, v) :: t) k = if k1 == k then some v else dget t k := by
  by_cases hk : k1 == k <;> simp [dget, List.find?, hk]

theorem dset_nil {α : Type} (k : String) (v : α) : dset ([] : List (String × α)) k v = [(k, v)] := by
  simp [dset]

theorem foldl_add_last_update (l : List Servlet) (c : CacheSt Servlet) :
    (l.foldl (fun c2 i => c2.add i.name i) c).last_update = c.last_update := by
  induction l generalizing c with
  | nil => rfl
  | cons a t ih => rw [List.foldl_cons, ih]; rfl

theorem foldl_add_duration (l : List Servlet) (c : CacheSt Servlet) :
    (l.foldl (fun c2 i => c2.add i.name i) c).duration = c.duration := by
  induction l generalizing c with
  | nil => rfl
  | cons a t ih => rw [List.foldl_cons, ih]; rfl

/-- The items accumulated by the installs loop: the fold of Python dict
assignment over the fetched servlets. -/
def installsOf (l : List Servlet) : List (String × Servlet) :=
  l.foldl (fun m i => dset m i.name i) []

theorem foldl_add_items (l : List Servlet) (c : CacheSt Servlet) :
    (l.foldl (fun c2 i => c2.add i.name i) c).items
      = l.foldl (fun m i => dset m i.name i) c.items := by
  induction l generalizing c with
  | nil => rfl
  | cons a t ih => rw [List.foldl_cons, List.foldl_cons, ih]; rfl

theorem installsRead_instantiated (st : ClientState) (now : Int)
    (fetch : Except PyErr (List Servlet)) :
    (installsRead st now fetch).2.instantiated = st.instantiated := by
  unfold installsRead
  by_cases hr : st.install_cache.needs_refresh now <;> simp [hr]
  cases fetch <;> simp

theorem installsRead_contentFetches (st : ClientState) (now : Int)
    (fetch : Except PyErr (List Servlet)) :
    (installsRead st now fetch).2.contentFetches = st.contentFetches := by
  unfold installsRead
  by_cases hr : st.install_cache.needs_refresh now <;> simp [hr]
  cases fetch <;> simp

theorem installsRead_no_refresh (st : ClientState) (now : Int)
    (fetch : Except PyErr (List Servlet))
    (hr : st.install_cache.needs_refresh now = false) :
    installsRead st now fetch = (.ok st.install_cache.items, st) := by
  unfold installsRead
  simp [hr]

theorem decode_loop_filterMap (enc : String → Bytes) (b64 : String → Bytes)
    (bs : List Block) (acc : List ContentM) :
    bs.foldl
      (fun out c =>
        match c with
        | .text s => out ++ [{ type := "text", _data := some (enc s) }]
        | .image d m => out ++ [{ type := "image", mime_type := m, _data := some (b64 d) }]
        | .other _ => out) acc
      = acc ++ bs.filterMap (convBlock enc b64) := by
  induction bs generalizing acc with
  | nil => simp
  | cons b t ih => cases b <;> simp [List.foldl_cons, ih, convBlock]

/-! ### Claim theorems -/

/-- C4: InstalledPlugin.call decodes the reply content array in order:
each text block yields a text Content whose payload is the encoded text
field, each image block yields an image Content whose bytes are the
base64 decoding of the data field with the MIME type of the block, any
other block is skipped, and order is preserved; in particular the reply
text a, image b, text c decodes to exactly those three blocks in that
order. -/
theorem call_decodes_content_in_order (enc : String → Bytes) (b64 : String → Bytes)
    (bs : List Block) (a d m c : String) :
    pluginCallDecode enc b64 bs = bs.filterMap (convBlock enc b64)
    ∧ pluginCallDecode enc b64 [.text a, .image d m, .text c] =
        [{ type := "text", mime_type := "text/plain", _data := some (enc a) },
         { type := "image", mime_type := m, _data := some (b64 d) },
         { type := "text", mime_type := "text/plain", _data := some (enc c) }] := by
  constructor
  · unfold pluginCallDecode
    simpa using decode_loop_filterMap enc b64 bs []
  · rfl

/-- C7: the sandbox manifest built by Client.plugin takes its allow
lists only from the supplied permission manifest, and absent keys
default to deny: no volumes key gives an empty allowed_paths map, no
domains key gives an empty allowed_hosts list, and absent static config
gives an empty config map. -/
theorem manifest_absent_fields_default_deny (content : Bytes) (settings : Settings)
    (pm : Permissions) (fs : FsPerm) (nw : NetPerm)
    (hp : settings.permissions = some pm)
    (hf : pm.filesystem = some fs)
    (hn : pm.network = some nw) :
    buildManifest content settings =
      .ok { wasm := content
          , allowed_paths := fs.volumes.getD []
          , allowed_hosts := nw.domains.getD []
          , config := settings.config.getD [] }
    ∧ (fs.volumes = none →
        (buildManifest content settings).map Manifest.allowed_paths = .ok [])
    ∧ (nw.domains = none →
        (buildManifest content settings).map Manifest.allowed_hosts = .ok [])
    ∧ (settings.config = none →
        (buildManifest content settings).map Manifest.config = .ok []) := by
  refine ⟨by simp [buildManifest, hp, hf, hn], ?_, ?_, ?_⟩
  · intro hv; simp [buildManifest, hp, hf, hn, hv, Except.map]
  · intro hd; simp [buildManifest, hp, hf, hn, hd, Except.map]
  · intro hc; simp [buildManifest, hp, hf, hn, hc, Except.map]

/-- C7 witness: a manifest whose sections are present but whose volumes,
domains and config keys are all absent yields empty allow lists. -/
theorem manifest_absent_fields_default_deny_witness :
    buildManifest [7] settings0 =
      .ok { wasm := [7], allowed_paths := [], allowed_hosts := [], config := [] }
    ∧ (buildManifest [7] settings0).map Manifest.allowed_paths = .ok []
    ∧ (buildManifest [7] settings0).map Manifest.allowed_hosts = .ok []
    ∧ (buildManifest [7] settings0).map Manifest.config = .ok [] := by
  have h := manifest_absent_fields_default_deny [7] settings0
    { filesystem := some { volumes := none }, network := some { domains := none } }
    { volumes := none } { domains := none } rfl rfl rfl
  exact ⟨h.1, h.2.1 rfl, h.2.2.1 rfl, h.2.2.2 rfl⟩

/-- C9: reading the is_error property of a ChatResponse (and of a
ToolResponse in the mcpx variant) raises AttributeError for every value,
because the body reads self.error while the stored field is _error; in
particular it never returns the stored flag even when _error is True. -/
theorem is_error_raises_attribute_error :
    (∀ r : ChatResponseP, r.is_error = .error .attributeError)
    ∧ (∀ r : ToolResponseM, r.is_error = .error .attributeError)
    ∧ ChatResponseP.is_error
        { role := "tool", content := "x", _error := some true } = .error .attributeError
    ∧ ToolResponseM.is_error
        { tool := "t", input := "i", _error := some true } = .error .attributeError := by
  exact ⟨fun r => rfl, fun r => rfl, rfl, rfl⟩

/-- C10: Client.plugin with a non-empty functions list raises TypeError
while building the cache key (the integer hash of a function pointer is
concatenated onto a string), before any cache lookup, module fetch or
instantiation, leaving the client state untouched; functions=None and an
empty functions list proceed identically to instantiation. -/
theorem plugin_nonempty_functions_raises_type_error
    (h : String → Int) (net : Bytes) (st : ClientState) (install : Servlet)
    (wasi : Bool) (f : Nat) (fs : List Nat) :
    pluginStep h net st install wasi (some (f :: fs)) = (.error .typeError, st)
    ∧ pluginStep h net st install wasi (some [])
        = pluginStep h net st install wasi none := by
  exact ⟨rfl, rfl⟩

/-- C3: a cache with no duration never needs a refresh, so reading
installs never triggers a network fetch; with a duration set,
needs_refresh holds exactly when last_update is absent or
now - last_update has reached the duration; two installs reads within
the ttl window issue at most one network fetch, and a read after the
ttl has elapsed issues exactly one more, replacing the whole install map
with the fetched one and clearing the plugin cache. -/
theorem cache_ttl_behavior :
    (∀ (c : CacheSt Servlet) (now : Int), c.duration = none →
      c.needs_refresh now = false)
    ∧ (∀ (st : ClientState) (now : Int) (fetch : Except PyErr (List Servlet)),
      st.install_cache.duration = none →
      installsRead st now fetch = (.ok st.install_cache.items, st))
    ∧ (∀ (c : CacheSt Servlet) (d now : Int), c.duration = some d →
      (c.needs_refresh now = true ↔
        c.last_update = none ∨ ∃ lu, c.last_update = some lu ∧ d ≤ now - lu))
    ∧ (∀ (st : ClientState) (d t1 t2 : Int)
        (f1 f2 : Except PyErr (List Servlet)),
      st.install_cache.duration = some d → t2 - t1 < d →
      (installsRead (installsRead st t1 f1).2 t2 f2).2.listFetches
        ≤ st.listFetches + 1)
    ∧ (∀ (st : ClientState) (now : Int) (l : List Servlet),
      st.install_cache.needs_refresh now = true →
      (installsRead st now (.ok l)).1 = .ok (installsOf l)
      ∧ (installsRead st now (.ok l)).2.install_cache.items = installsOf l
      ∧ (installsRead st now (.ok l)).2.plugin_cache.items = []
      ∧ (installsRead st now (.ok l)).2.listFetches = st.listFetches + 1
      ∧ (installsRead st now (.ok l)).2.install_cache.last_update = some now) := by
  refine ⟨?_, ?_, ?_, ?_, ?_⟩
  · intro c now hd
    simp [CacheSt.needs_refresh, hd]
  · intro st now fetch hd
    have hr : st.install_cache.needs_refresh now = false := by
      simp [CacheSt.needs_refresh, hd]
    exact installsRead_no_refresh st now fetch hr
  · intro c d now hd
    cases hlu : c.last_update with
    | none => simp [CacheSt.needs_refresh, hd, hlu]
    | some lu => simp [CacheSt.needs_refresh, hd, hlu]
  · intro st d t1 t2 f1 f2 hd hwin
    by_cases hr1 : st.install_cache.needs_refresh t1
    · have hread : ((installsRead st t1 f1).2.install_cache.duration = some d)
          ∧ ((installsRead st t1 f1).2.install_cache.last_update = some t1)
          ∧ ((installsRead st t1 f1).2.listFetches = st.listFetches + 1) := by
        unfold installsRead
        simp only [hr1, if_true]
        cases f1 with
        | error e => simp [CacheSt.clear, hd]
        | ok l =>
          simp [CacheSt.clear, foldl_add_duration, foldl_add_last_update, hd]
      have hr2 : (installsRead st t1 f1).2.install_cache.needs_refresh t2 = false := by
        simp [CacheSt.needs_refresh, hread.1, hread.2.1]
        omega
      rw [installsRead_no_refresh _ t2 f2 hr2]
      simp [hread.2.2]
    · rw [installsRead_no_refresh st t1 f1 (by simpa using hr1)]
      unfold installsRead
      by_cases hr2 : st.install_cache.needs_refresh t2 <;> simp [hr2]
      cases f2 with
      | error e => simp
      | ok l => simp
  · intro st now l hr
    unfold installsRead
    simp only [hr, if_true]
    refine ⟨?_, ?_, ?_, ?_, ?_⟩
    · simp [foldl_add_items, CacheSt.clear, installsOf]
    · simp [foldl_add_items, CacheSt.clear, installsOf]
    · simp [CacheSt.clear]
    · simp
    · simp [foldl_add_last_update, CacheSt.clear]

/-- C3 witness: concrete instances of each part of the ttl theorem; a
duration-free cache never refreshes, a no-ttl client read is a pure
cache read, a stale cache reports needing refresh, two reads inside the
window fetch at most once, and an elapsed read refreshes once. -/
theorem cache_ttl_behavior_witness :
    CacheSt.needs_refresh
      { items := ([] : List (String × Servlet)), duration := none, last_update := some 0 } 5
      = false
    ∧ installsRead
        { install_cache := { items := [("s", servlet0)], duration := none, last_update := some 0 }
        , plugin_cache := { items := [], duration := none, last_update := none }
        , instantiated := 0, contentFetches := 0, listFetches := 0 } 5 (.error .netError)
      = (.ok [("s", servlet0)],
         { install_cache := { items := [("s", servlet0)], duration := none, last_update := some 0 }
         , plugin_cache := { items := [], duration := none, last_update := none }
         , instantiated := 0, contentFetches := 0, listFetches := 0 })
    ∧ CacheSt.needs_refresh
        ({ items := [("s", servlet0)], duration := some 1, last_update := some 0 } : CacheSt Servlet) 5
      = true
    ∧ (installsRead (installsRead freshWindowClient 2 (.ok [])).2 4 (.ok [])).2.listFetches
        ≤ freshWindowClient.listFetches + 1
    ∧ (installsRead staleClient 5 (.ok [servlet0])).1 = .ok (installsOf [servlet0])
    ∧ (installsRead staleClient 5 (.ok [servlet0])).2.install_cache.items = installsOf [servlet0]
    ∧ (installsRead staleClient 5 (.ok [servlet0])).2.plugin_cache.items = []
    ∧ (installsRead staleClient 5 (.ok [servlet0])).2.listFetches = staleClient.listFetches + 1
    ∧ (installsRead staleClient 5 (.ok [servlet0])).2.install_cache.last_update = some 5 := by
  have h := cache_ttl_behavior
  have h5 := h.2.2.2.2 staleClient 5 [servlet0] (by decide)
  exact ⟨h.1 _ 5 rfl,
         h.2.1 _ 5 (.error .netError) rfl,
         (h.2.2.1 _ 1 5 rfl).mpr (Or.inr ⟨0, rfl, by decide⟩),
         h.2.2.2.1 freshWindowClient 10 2 4 (.ok []) (.ok []) rfl (by decide),
         h5.1, h5.2.1, h5.2.2.1, h5.2.2.2.1, h5.2.2.2.2⟩

/-- C2: when a refresh is due and the network read of the install list
fails, Client.installs surfaces the error to the caller, but contrary to
the claim the previously cached install map is NOT kept: Cache.clear has
already emptied the items and set last_update, so the failed refresh
leaves an empty map that later reads inside the ttl serve silently.
This theorem evaluates the embedded code on the failing scenario. -/
theorem failed_refresh_drops_cached_installs
    (st : ClientState) (now : Int) (e : PyErr)
    (hr : st.install_cache.needs_refresh now = true)
    (hne : st.install_cache.items ≠ []) :
    (installsRead st now (.error e)).1 = .error e
    ∧ (installsRead st now (.error e)).2.install_cache.items = []
    ∧ (installsRead st now (.error e)).2.install_cache.items ≠ st.install_cache.items
    ∧ (installsRead st now (.error e)).2.install_cache.last_update = some now := by
  have key : installsRead st now (.error e) =
      (.error e,
       { st with install_cache := st.install_cache.clear now
               , plugin_cache := st.plugin_cache.clear now
               , listFetches := st.listFetches + 1 }) := by
    unfold installsRead
    rw [hr]
    rfl
  rw [key]
  exact ⟨rfl, rfl, fun hh => hne hh.symm, rfl⟩

/-- C2 witness: a stale client with one cached servlet whose refresh
fails ends with an empty install map even though the error is raised. -/
theorem failed_refresh_drops_cached_installs_witness :
    (installsRead staleClient 5 (.error .netError)).1 = .error .netError
    ∧ (installsRead staleClient 5 (.error .netError)).2.install_cache.items = []
    ∧ (installsRead staleClient 5 (.error .netError)).2.install_cache.items
        ≠ staleClient.install_cache.items
    ∧ (installsRead staleClient 5 (.error .netError)).2.install_cache.last_update = some 5 :=
  failed_refresh_drops_cached_installs staleClient 5 .netError (by decide) (by decide)

/-- C1: contrary to the claim, two successive Client.plugin calls with
the same servlet and the same options never share a sandbox: the second
call looks the key str(hash(name-wasi)) up but the first call stored the
plugin under install.name (src/mcpx/client.py line 414), so whenever
that hash string differs from the servlet name (always, for a Python
hash seed, when the name is not a decimal numeral) the second call
misses the cache, constructs a second ext.Plugin and returns a distinct
live instance: the ids are consecutive and the instantiation counter
rises by two. -/
theorem plugin_cache_second_call_reinstantiates
    (h : String → Int) (net : Bytes) (st : ClientState) (install : Servlet)
    (pm : Permissions) (fs : FsPerm) (nw : NetPerm)
    (hempty : st.plugin_cache.items = [])
    (hp : install.settings.permissions = some pm)
    (hf : pm.filesystem = some fs)
    (hn : pm.network = some nw)
    (hkey : toString (h (install.name ++ "-" ++ pyBoolStr true)) ≠ install.name) :
    (pluginTwice h net st install).map
        (fun r => (r.1.pluginId, r.2.1.pluginId, r.2.2.instantiated))
      = some (st.instantiated, st.instantiated + 1, st.instantiated + 2) := by
  have hbeq : (install.name == toString (h (install.name ++ "-" ++ pyBoolStr true))) = false :=
    beq_eq_false_iff_ne.mpr (Ne.symm hkey)
  cases hc : install.content with
  | none =>
    simp [pluginTwice, pluginStep, hempty, dget_nil, hc, buildManifest, hp, hf, hn,
      CacheSt.add, dset_nil, dget_cons, hbeq]
  | some b =>
    simp [pluginTwice, pluginStep, hempty, dget_nil, hc, buildManifest, hp, hf, hn,
      CacheSt.add, dset_nil, dget_cons, hbeq]

/-- C1 witness: on a fresh client, two plugin calls for servlet s with
wasi=True and no functions produce plugin ids 0 and 1 and two sandbox
instantiations. -/
theorem plugin_cache_second_call_reinstantiates_witness :
    (pluginTwice (fun _ => 0) [1] freshClient servlet0).map
        (fun r => (r.1.pluginId, r.2.1.pluginId, r.2.2.instantiated))
      = some (0, 1, 2) :=
  plugin_cache_second_call_reinstantiates (fun _ => 0) [1] freshClient servlet0
    { filesystem := some { volumes := none }, network := some { domains := none } }
    { volumes := none } { domains := none } rfl rfl rfl rfl (by decide)

/-- C5 counterexample: with the ttl elapsed, Client.call on an unknown
tool name still fails with the KeyError (ToolNotFound) lookup, but it
does modify cache state on the way: reading the tool index refreshes the
install cache and clears the plugin cache, so the claim that no cache
state is modified by the failed call is false. -/
theorem unknown_tool_call_modifies_cache_counterexample :
    (callStep (fun _ => 0) [] staleClient 5 (.ok []) "nope" true none).1 = .error .keyError
    ∧ (callStep (fun _ => 0) [] staleClient 5 (.ok []) "nope" true none).2.plugin_cache.items = []
    ∧ staleClient.plugin_cache.items ≠ [] :=
  ⟨rfl, rfl, by decide⟩

/-- C5 amended: Client.call with a tool name absent from the tool index
fails with the KeyError lookup (the ToolNotFound condition) before any
plugin instantiation, module-bytes fetch or sandbox interaction, and
adds nothing to any cache; the only cache-state change the failed call
can make is the scheduled ttl refresh performed while reading the tool
index (when no refresh is due the state is unchanged). -/
theorem unknown_tool_fails_before_sandbox
    (h : String → Int) (net : Bytes) (st st1 : ClientState) (now : Int)
    (fetch : Except PyErr (List Servlet)) (tool : String) (wasi : Bool)
    (fns : Option (List Nat)) (items : List (String × Servlet))
    (hread : installsRead st now fetch = (.ok items, st1))
    (hmiss : dget (toolsIndex items) tool = none) :
    callStep h net st now fetch tool wasi fns = (.error .keyError, st1)
    ∧ st1.instantiated = st.instantiated
    ∧ st1.contentFetches = st.contentFetches
    ∧ (st.install_cache.needs_refresh now = false → st1 = st) := by
  refine ⟨?_, ?_, ?_, ?_⟩
  · unfold callStep
    rw [hread]
    simp [hmiss]
  · have h2 := installsRead_instantiated st now fetch
    rw [hread] at h2
    exact h2
  · have h2 := installsRead_contentFetches st now fetch
    rw [hread] at h2
    exact h2
  · intro hr
    have h2 := hread
    rw [installsRead_no_refresh st now fetch hr] at h2
    exact (congrArg Prod.snd h2).symm

/-- C5 witness: inside the ttl window, calling an unknown tool fails
with KeyError and leaves the client state exactly as it was. -/
theorem unknown_tool_fails_before_sandbox_witness :
    callStep (fun _ => 0) [] freshWindowClient 4 (.ok []) "nope" true none
      = (.error .keyError, freshWindowClient)
    ∧ freshWindowClient.instantiated = freshWindowClient.instantiated
    ∧ freshWindowClient.contentFetches = freshWindowClient.contentFetches
    ∧ (freshWindowClient.install_cache.needs_refresh 4 = false →
        freshWindowClient = freshWindowClient) :=
  unknown_tool_fails_before_sandbox (fun _ => 0) [] freshWindowClient freshWindowClient 4
    (.ok []) "nope" true none [("s", servlet0)] rfl (by decide)

/-- C8: module bytes start absent and are fetched at most once.  Part
one: an instantiation that finds them absent (and misses the plugin
cache, with a well-formed permission manifest) fetches them exactly
once, stores them on the servlet record leaving every other field as it
was (the returned record is the input record with only content set), and
then instantiates.  Part two: any instantiation of a record whose bytes
are already present performs no content fetch and returns the record
unchanged. -/
theorem module_bytes_fetched_once :
    (∀ (h : String → Int) (net : Bytes) (st : ClientState) (install : Servlet)
        (wasi : Bool) (pm : Permissions) (fs : FsPerm) (nw : NetPerm),
      install.content = none →
      dget st.plugin_cache.items
          (toString (h (install.name ++ "-" ++ pyBoolStr wasi))) = none →
      install.settings.permissions = some pm →
      pm.filesystem = some fs →
      pm.network = some nw →
      pluginStep h net st install wasi none =
        (.ok ({ install := { install with content := some net }
              , pluginId := st.instantiated },
              { install with content := some net }),
         { st with contentFetches := st.contentFetches + 1
                 , instantiated := st.instantiated + 1
                 , plugin_cache := st.plugin_cache.add install.name
                     { install := { install with content := some net }
                     , pluginId := st.instantiated } }))
    ∧ (∀ (h : String → Int) (net : Bytes) (st : ClientState) (install : Servlet)
        (wasi : Bool) (fns : Option (List Nat)) (b : Bytes),
      install.content = some b →
      (pluginStep h net st install wasi fns).2.contentFetches = st.contentFetches
      ∧ (∀ (p : InstalledPlugin) (i1 : Servlet),
          (pluginStep h net st install wasi fns).1 = .ok (p, i1) → i1 = install)) := by
  constructor
  · intro h net st install wasi pm fs nw hcontent hmiss hp hf hn
    simp [pluginStep, hmiss, hcontent, buildManifest, hp, hf, hn]
  · intro h net st install wasi fns b hcontent
    match fns with
    | some (f :: fs) =>
      refine ⟨rfl, ?_⟩
      intro p i1 hcontra
      simp [pluginStep] at hcontra
    | some [] =>
      cases hl : dget st.plugin_cache.items
          (toString (h (install.name ++ "-" ++ pyBoolStr wasi))) with
      | some p0 =>
        constructor
        · simp [pluginStep, hl]
        · intro p i1 hok
          simp [pluginStep, hl] at hok
          exact hok.2.symm
      | none =>
        cases hm : buildManifest b install.settings with
        | error e =>
          constructor
          · simp [pluginStep, hl, hcontent, hm]
          · intro p i1 hok
            simp [pluginStep, hl, hcontent, hm] at hok
        | ok mf =>
          constructor
          · simp [pluginStep, hl, hcontent, hm]
          · intro p i1 hok
            simp [pluginStep, hl, hcontent, hm] at hok
            exact hok.2.symm
    | none =>
      cases hl : dget st.plugin_cache.items
          (toString (h (install.name ++ "-" ++ pyBoolStr wasi))) with
      | some p0 =>
        constructor
        · simp [pluginStep, hl]
        · intro p i1 hok
          simp [pluginStep, hl] at hok
          exact hok.2.symm
      | none =>
        cases hm : buildManifest b install.settings with
        | error e =>
          constructor
          · simp [pluginStep, hl, hcontent, hm]
          · intro p i1 hok
            simp [pluginStep, hl, hcontent, hm] at hok
        | ok mf =>
          constructor
          · simp [pluginStep, hl, hcontent, hm]
          · intro p i1 hok
            simp [pluginStep, hl, hcontent, hm] at hok
            exact hok.2.symm

/-- C8 witness: a first instantiation of servlet s fetches and stores
its module bytes changing no other field, and an instantiation of the
record that already holds bytes fetches nothing. -/
theorem module_bytes_fetched_once_witness :
    pluginStep (fun _ => 0) [9] freshClient servlet0 true none =
      (.ok ({ install := { servlet0 with content := some [9] }
            , pluginId := freshClient.instantiated },
            { servlet0 with content := some [9] }),
       { freshClient with
           contentFetches := freshClient.contentFetches + 1
         , instantiated := freshClient.instantiated + 1
         , plugin_cache := freshClient.plugin_cache.add servlet0.name
             { install := { servlet0 with content := some [9] }
             , pluginId := freshClient.instantiated } })
    ∧ (pluginStep (fun _ => 0) [9] freshClient
        { servlet0 with content := some [9] } true none).2.contentFetches
        = freshClient.contentFetches :=
  ⟨module_bytes_fetched_once.1 (fun _ => 0) [9] freshClient servlet0 true
      { filesystem := some { volumes := none }, network := some { domains := none } }
      { volumes := none } { domains := none } rfl rfl rfl rfl rfl,
   (module_bytes_fetched_once.2 (fun _ => 0) [9] freshClient
      { servlet0 with content := some [9] } true none [9] rfl).1⟩

theorem ollamaChat_single_turn (env : ChatEnv) (dec : Bytes → String) (fuel : Nat)
    (msgs : List MsgP) (msg t : String)
    (hreply : (env.oracle (appendMsg (withSystem env msgs) msg "tool" (some t))).tool_calls
      = []) :
    (ollamaChat env dec fuel msgs msg (some t)).2.2 = 1
    ∧ ∃ tail, (ollamaChat env dec fuel msgs msg (some t)).2.1
        = appendMsg (withSystem env msgs) msg "tool" (some t) ++ tail := by
  have hrole : (if (some t).isNone then "user" else "tool") = "tool" := rfl
  cases fuel with
  | zero =>
    rcases hcon : (env.oracle (appendMsg (withSystem env msgs) msg "tool" (some t))).content
      with _ | c
    · unfold ollamaChat
      rw [hrole]
      simp [hcon]
    · by_cases hce : c = ""
      · unfold ollamaChat
        rw [hrole]
        simp [hcon, hce]
      · unfold ollamaChat
        rw [hrole]
        simp only [hcon]
        refine ⟨by simp [hce], ⟨[{ role := "assistant", content := c }], ?_⟩⟩
        simp [hce, appendMsg]
  | succ fuel =>
    rcases hcon : (env.oracle (appendMsg (withSystem env msgs) msg "tool" (some t))).content
      with _ | c
    · unfold ollamaChat
      rw [hrole]
      simp [hcon, hreply]
    · by_cases hce : c = ""
      · unfold ollamaChat
        rw [hrole]
        simp [hcon, hce, hreply]
      · unfold ollamaChat
        rw [hrole]
        simp only [hcon, hreply]
        refine ⟨by simp [hce], ⟨[{ role := "assistant", content := c }], ?_⟩⟩
        simp [hce, appendMsg]

/-- C6: a tool invocation whose client call raises (inside the sandbox
or while decoding) does not propagate the exception: call_tool catches
it and returns normally, yielding first a role tool ChatResponse whose
content is the traceback with the _error flag set, appending the
role tool error message (tool-output prefix plus the
Encountered-an-error text) to the conversation, and issuing exactly one
further model turn on the conversation that includes that message,
provided the model requests no further tool in its reply to it. -/
theorem tool_error_fed_back_not_raised
    (env : ChatEnv) (dec : Bytes → String) (fuel : Nat) (msgs : List MsgP)
    (name input s : String)
    (hc : env.callClient name input = .error s)
    (hreply : (env.oracle (appendMsg (withSystem env msgs)
        (toolErrorText name s) "tool" (some name))).tool_calls = []) :
    (callTool env dec fuel msgs name input).2.2 = 1
    ∧ (callTool env dec fuel msgs name input).1.head? =
        some { role := "tool", content := s, kind := "text"
             , tool := some { name := name, input := input }, _error := some true }
    ∧ MsgP.mk "tool" (name ++ " output: " ++ toolErrorText name s)
        ∈ (callTool env dec fuel msgs name input).2.1 := by
  obtain ⟨hcount, tail, htail⟩ :=
    ollamaChat_single_turn env dec fuel msgs (toolErrorText name s) name hreply
  have hct : callTool env dec fuel msgs name input =
      ({ role := "tool", content := s, kind := "text"
       , tool := some { name := name, input := input }, _error := some true }
        :: (ollamaChat env dec fuel msgs (toolErrorText name s) (some name)).1,
       (ollamaChat env dec fuel msgs (toolErrorText name s) (some name)).2.1,
       (ollamaChat env dec fuel msgs (toolErrorText name s) (some name)).2.2) := by
    unfold callTool
    rw [hc]
  rw [hct]
  refine ⟨hcount, rfl, ?_⟩
  rw [htail]
  apply List.mem_append_left
  simp [appendMsg]

/-- C6 witness: with a client whose call always raises the traceback
boom and a model that answers the error turn with plain text, call_tool
returns one error-flagged tool response, records the tool-role error
message, and issues exactly one further model turn. -/
theorem tool_error_fed_back_not_raised_witness :
    (callTool envW (fun _ => "") 0 [] "t" "i").2.2 = 1
    ∧ (callTool envW (fun _ => "") 0 [] "t" "i").1.head? =
        some { role := "tool", content := "boom", kind := "text"
             , tool := some { name := "t", input := "i" }, _error := some true }
    ∧ MsgP.mk "tool" ("t" ++ " output: " ++ toolErrorText "t" "boom")
        ∈ (callTool envW (fun _ => "") 0 [] "t" "i").2.1 :=
  tool_error_fed_back_not_raised envW (fun _ => "") 0 [] "t" "i" "boom" rfl rfl
